import Mathlib

/-!
Verification of the checkpoint subsystem of the Codey coding agent.

This file gives a shallow embedding of `TaskCheckpointManager`
(`src/unnamed/part_006`) and proves or refutes the specified properties of
`saveCheckpoint`, `restoreCheckpoint`, `checkpointTrackerCheckAndInit`,
`commit` and `doesLatestTaskCompletionHaveNewChanges`.

Modelling conventions:
- The external version-control engine (`CheckpointTracker`) is an oracle
  (`EngineEnv`) deciding the outcome of `create` / `commit` / `resetHead` /
  `getDiffCount`; every engine invocation is recorded in an `EngineCall`
  trace so that "performs zero engine calls" is a statement about the trace.
- The conversation log and the manager's internal state are explicit values
  threaded through each operation.
- User-visible notifications (`HostProvider.window.showMessage`) are recorded
  in a `shown : List String` output where a claim depends on them.
- The dashboard integration is modelled as disabled (its default,
  `DEFAULT_DASHBOARD_SETTINGS.enabled = false`), so the dashboard-only
  branches of `saveCheckpoint` are omitted.
-/

namespace Codey

/-- Say-tag of checkpoint marker messages (`"checkpoint_created"`). -/
def checkpointCreatedTag : String := "checkpoint_created"

/-- Say-tag of completion result messages (`"completion_result"`). -/
def completionResultTag : String := "completion_result"

/-- Say-tag of the synthetic discarded-requests ledger message. -/
def deletedApiReqsTag : String := "deleted_api_reqs"

/-- Say-tag for plain text messages. -/
def textTag : String := "text"

/--
A conversation message (`ClineMessage`), restricted to the fields the
checkpoint manager reads or writes.  The free-text payload of a message is
not needed by any property and is not modelled.
-/
structure ClineMessage where
  ts : Nat
  say : Option String
  lastCheckpointHash : Option String
  isCheckpointCheckedOut : Option Bool
  conversationHistoryIndex : Option Nat
  conversationHistoryDeletedRange : Option (Nat × Nat)
  checkpointSummary : Option String
  deriving DecidableEq

/-- The mutable per-task manager state (`CheckpointManagerInternalState`).
The tracker handle is opaque, so only its presence is modelled.  The
in-flight promise field is modelled separately by the interleaving model
below, since in a sequential call it is always empty on entry and exit. -/
structure MgrState where
  conversationHistoryDeletedRange : Option (Nat × Nat)
  checkpointTracker : Bool
  checkpointManagerErrorMessage : Option String
  deriving DecidableEq

/-- One call into the external version-control engine. -/
inductive EngineCall where
  | create
  | commit
  | resetHead (hash : String)
  | getDiffSet (a : String) (b : Option String)
  | getDiffCount (a b : String)
  deriving DecidableEq

/-- Oracle fixing the outcomes of the external engine and of the external
summary provider for one run. -/
structure EngineEnv where
  createOk : Bool
  createTimedOut : Bool
  warningFired : Bool
  createErrorMessage : String
  commitHash : Option String
  resetOk : Bool
  resetErrorMessage : String
  generatedSummary : String
  diffCount : String → String → Nat

/-- JavaScript `String.prototype.includes`. -/
def jsIncludes (s pat : String) : Bool :=
  (List.range (s.length + 1)).any fun i => List.isPrefixOf pat.data (s.data.drop i)

/-- The sticky fatal error stored after an initialization timeout
(`initializeCheckpointTracker`, line 1096). -/
def fatalTimeoutMessage : String :=
  "Checkpoints initialization timed out. Consider re-opening Cline in a project that uses git, or disabling checkpoints."

/-- The rejection message of the 15s hard timeout (`pTimeout`, line 1082). -/
def timeoutRejectionText : String :=
  "Checkpoints taking too long to initialize. Consider re-opening Cline in a project that uses git, or disabling checkpoints."

/-- The non-fatal 7s warning text (`initializeCheckpointTracker`, line 1070). -/
def checkpointsWarningMessage : String :=
  "Checkpoints are taking longer than expected to initialize. Working in a large repository? Consider re-opening Cline in a project that uses git, or disabling checkpoints."

/-- The substring that classifies a stored error as the fatal timeout
(`saveCheckpoint` line 131, line 152). -/
def timeoutErrorPattern : String := "Checkpoints initialization timed out."

/-- `this.state.checkpointManagerErrorMessage?.includes("Checkpoints initialization timed out.")`. -/
def hasTimeoutError (st : MgrState) : Bool :=
  match st.checkpointManagerErrorMessage with
  | some m => jsIncludes m timeoutErrorPattern
  | none => false

/-!
## The singleflight initialization guard (claim C1)

`checkpointTrackerCheckAndInit` (lines 1034-1055) runs on a single-threaded
cooperative event loop.  Lines 1036-1046 — the tracker check, the in-flight
promise check, and the assignment of a fresh promise — contain no `await`,
so from the point of view of every other caller they execute atomically.
The model below therefore has one atomic `arrive` step per caller and one
`complete` step for the settlement of the in-flight
`initializeCheckpointTracker()` promise; at settlement the successful
tracker is stored (line 1087), every awaiting caller resolves with the same
value, and the owner's `finally` clears the promise field (line 1053).
-/

/-- One scheduler event of the singleflight model. -/
inductive SFEvent where
  | arrive
  | complete (r : Option Nat)

/-- State of the singleflight guard together with the observables of a run:
how many `CheckpointTracker.create` calls were started, how many callers are
awaiting the in-flight promise, and the values returned to finished callers. -/
structure SFState where
  tracker : Option Nat
  inFlight : Bool
  createCalls : Nat
  waiting : Nat
  results : List (Option Nat)
  deriving DecidableEq

/-- Transition of the singleflight guard.  `arrive` is the atomic section of
`checkpointTrackerCheckAndInit` up to its first suspension; `complete r` is
the settlement of the in-flight initialization with result `r` (`some h` on
success, `none` on failure). -/
def sfStep (s : SFState) : SFEvent → SFState
  | .arrive =>
    match s.tracker with
    | some h => { s with results := s.results ++ [some h] }
    | none =>
      if s.inFlight then
        { s with waiting := s.waiting + 1 }
      else
        { s with inFlight := true, createCalls := s.createCalls + 1, waiting := 1 }
  | .complete r =>
    if s.inFlight then
      { tracker := match r with | some h => some h | none => s.tracker
        inFlight := false
        createCalls := s.createCalls
        waiting := 0
        results := s.results ++ List.replicate s.waiting r }
    else s

/-- A run of the guard from a state under a list of events. -/
def sfRun (s : SFState) (es : List SFEvent) : SFState :=
  es.foldl sfStep s

/-- The state of a task that has no tracker handle yet. -/
def sfInit : SFState :=
  { tracker := none, inFlight := false, createCalls := 0, waiting := 0, results := [] }

theorem sfStep_arrive_inflight (c w : Nat) (res : List (Option Nat)) :
    sfStep ⟨none, true, c, w, res⟩ .arrive = ⟨none, true, c, w + 1, res⟩ := rfl

theorem sfRun_arrives (k : Nat) (c w : Nat) (res : List (Option Nat)) :
    sfRun ⟨none, true, c, w, res⟩ (List.replicate k .arrive) = ⟨none, true, c, w + k, res⟩ := by
  induction k generalizing w with
  | zero => rfl
  | succ n ih =>
    rw [List.replicate_succ]
    show sfRun (sfStep ⟨none, true, c, w, res⟩ .arrive) (List.replicate n .arrive) = _
    rw [sfStep_arrive_inflight, ih]
    congr 1
    omega

/--
**C1.** With no existing tracker handle, `N ≥ 1` concurrent calls to
`checkpointTrackerCheckAndInit` — each arriving while the first call's
initialization is still in flight — start exactly one underlying
`CheckpointTracker.create`; when that single attempt settles with result
`r`, every one of the `N` callers receives `r`, and the in-flight promise
field is clear again (success or failure).  Moreover, after a failed
attempt (`r = none`) a subsequent call starts a fresh attempt.
-/
theorem checkpointTrackerCheckAndInit_singleflight (N : Nat) (r : Option Nat) (h : 1 ≤ N) :
    (sfRun sfInit (List.replicate N .arrive ++ [.complete r])).createCalls = 1 ∧
    (sfRun sfInit (List.replicate N .arrive ++ [.complete r])).results = List.replicate N r ∧
    (sfRun sfInit (List.replicate N .arrive ++ [.complete r])).inFlight = false ∧
    (r = none →
      (sfStep (sfRun sfInit (List.replicate N .arrive ++ [.complete r])) .arrive).createCalls = 2 ∧
      (sfStep (sfRun sfInit (List.replicate N .arrive ++ [.complete r])) .arrive).inFlight = true) := by
  obtain ⟨k, rfl⟩ : ∃ k, N = k + 1 := ⟨N - 1, by omega⟩
  have harr : sfRun sfInit (List.replicate (k + 1) .arrive) = ⟨none, true, 1, 1 + k, []⟩ := by
    rw [List.replicate_succ]
    show sfRun (sfStep sfInit .arrive) (List.replicate k .arrive) = _
    have : sfStep sfInit .arrive = ⟨none, true, 1, 1, []⟩ := rfl
    rw [this, sfRun_arrives]
  have hrun : sfRun sfInit (List.replicate (k + 1) .arrive ++ [.complete r]) =
      sfStep (sfRun sfInit (List.replicate (k + 1) .arrive)) (.complete r) := by
    unfold sfRun
    rw [List.foldl_append]
    rfl
  rw [hrun, harr]
  have hcomp : sfStep (⟨none, true, 1, 1 + k, []⟩ : SFState) (.complete r) =
      ⟨match r with | some h => some h | none => none, false, 1, 0,
        List.replicate (1 + k) r⟩ := by
    cases r <;> rfl
  rw [hcomp]
  refine ⟨rfl, by simp [Nat.add_comm], rfl, ?_⟩
  rintro rfl
  exact ⟨rfl, rfl⟩

/-!
## Sequential model of the manager operations

Each operation maps an engine oracle, the configuration flag, the manager
state and the conversation log to a result carrying the updated state, the
updated log and the trace of engine calls made.
-/

/-- JavaScript-style `findLast`: the last element satisfying the test. -/
def jsFindLast (msgs : List ClineMessage) (p : ClineMessage → Bool) : Option ClineMessage :=
  (msgs.filter p).getLast?

/-- Sets `isCheckpointCheckedOut` to `false` on every existing
`checkpoint_created` message (`saveCheckpoint`, lines 136-142). -/
def clearCheckedOut (msgs : List ClineMessage) : List ClineMessage :=
  msgs.map fun m =>
    if m.say == some checkpointCreatedTag then { m with isCheckpointCheckedOut := some false } else m

/-- Modelled from the spec: the `say` callback supplied by the Task class is
not part of the excerpted sources; per the spec it appends a message whose
timestamp is "monotonically increasing within a task" to the ConversationLog
and returns that timestamp.  The model assigns one more than the largest
timestamp currently in the log. -/
def sayTs (msgs : List ClineMessage) : Nat :=
  (msgs.foldr (fun m acc => max m.ts acc) 0) + 1

/-- The fresh `checkpoint_created` marker appended by `say` (line 174). -/
def newCheckpointMessage (t : Nat) : ClineMessage :=
  ⟨t, some checkpointCreatedTag, none, none, none, none, none⟩

/-- The synthetic discarded-requests ledger entry appended by
`handleSuccessfulRestore` (lines 970-979); its metric payload is free text
and is not modelled. -/
def deletedApiReqsMessage (t : Nat) : ClineMessage :=
  ⟨t, some deletedApiReqsTag, none, none, none, none, none⟩

/-- The fire-and-forget continuation of `tracker.commit()` on the
non-completion path (lines 180-291, dashboard disabled): when the commit
resolves with a hash, the hash is attached to the message created by `say`,
located by timestamp.  The model linearizes the continuation into the call
that started it; no claim depends on its scheduling. -/
def attachCommit (env : EngineEnv) (msgs : List ClineMessage) (t : Nat) : List ClineMessage :=
  match env.commitHash with
  | some h => msgs.map fun m => if m.ts == t then { m with lastCheckpointHash := some h } else m
  | none => msgs

/-- `initializeCheckpointTracker` (lines 1060-1109): runs
`CheckpointTracker.create` under the 15s `pTimeout` with the 7s warning
timer.  The trace records that a `create` was started; on timeout the sticky
fatal message is stored, on any other rejection the rejection text is
stored, and on success the handle is stored (a previously fired warning text
is never cleared). -/
def initializeCheckpointTracker (env : EngineEnv) (st : MgrState) : MgrState × List EngineCall :=
  let st0 :=
    if env.warningFired then
      { st with checkpointManagerErrorMessage := some checkpointsWarningMessage }
    else st
  if env.createTimedOut then
    ({ st0 with checkpointManagerErrorMessage := some fatalTimeoutMessage }, [.create])
  else if env.createOk then
    ({ st0 with checkpointTracker := true }, [.create])
  else
    ({ st0 with checkpointManagerErrorMessage := some env.createErrorMessage }, [.create])

/-- `checkpointTrackerCheckAndInit` (lines 1034-1055) as invoked from a
sequential operation, where the in-flight promise field is empty on entry
and on exit.  Note that, despite the source comment "If tracker already
exists or there was an error, return immediately", the code inspects only
the tracker field before starting an initialization. -/
def checkpointTrackerCheckAndInit (env : EngineEnv) (st : MgrState) :
    MgrState × List EngineCall :=
  if st.checkpointTracker then (st, [])
  else initializeCheckpointTracker env st

/-- Lines 144-155 of `saveCheckpoint`: lazy initialization, attempted for
non-completion checkpoints only while no error is recorded, and for
completion checkpoints unless the recorded error is the fatal timeout. -/
def saveInitStep (env : EngineEnv) (st : MgrState) (isAttemptCompletionMessage : Bool) :
    MgrState × List EngineCall :=
  if !st.checkpointTracker && !isAttemptCompletionMessage &&
      st.checkpointManagerErrorMessage == none then
    checkpointTrackerCheckAndInit env st
  else if !st.checkpointTracker && isAttemptCompletionMessage && !hasTimeoutError st then
    checkpointTrackerCheckAndInit env st
  else (st, [])

/-- `clineMessages.at(-1)?.say === "checkpoint_created"` (lines 168-169). -/
def lastIsCheckpointCreated (msgs : List ClineMessage) : Bool :=
  match msgs.getLast? with
  | some m => m.say == some checkpointCreatedTag
  | none => false

/-- Result of one `saveCheckpoint` call. -/
structure SaveResult where
  state : MgrState
  messages : List ClineMessage
  calls : List EngineCall
  deriving DecidableEq

/-- The attempt-completion branch of `saveCheckpoint` (lines 293-499) with
the dashboard disabled.  `last3` is `getClineMessages().slice(-3)`; a
completion-result message there that already carries a hash suppresses the
duplicate; otherwise the commit is awaited and its hash (possibly absent)
and a summary are attached to the message selected by `completionMessageTs`,
or to the found completion-result message when no timestamp was given. -/
def saveCompletionStep (env : EngineEnv) (st : MgrState) (msgs : List ClineMessage)
    (calls : List EngineCall) (completionMessageTs : Option Nat)
    (checkpointSummary : Option String) : SaveResult :=
  let last3 := msgs.drop (msgs.length - 3)
  let lastCompletion := jsFindLast last3 (fun m => m.say == some completionResultTag)
  if (lastCompletion.bind (fun m => m.lastCheckpointHash)).isSome then
    ⟨st, msgs, calls⟩
  else
    let calls1 := calls ++ [.commit]
    let finalSummary := checkpointSummary.getD env.generatedSummary
    match completionMessageTs with
    | some cts =>
      ⟨st,
        msgs.map fun m =>
          if m.ts == cts then
            { m with lastCheckpointHash := env.commitHash, checkpointSummary := some finalSummary }
          else m,
        calls1⟩
    | none =>
      match lastCompletion with
      | some lc =>
        ⟨st,
          msgs.map fun m =>
            if m.ts == lc.ts then
              { m with lastCheckpointHash := env.commitHash, checkpointSummary := some finalSummary }
            else m,
          calls1⟩
      | none => ⟨st, msgs, calls1⟩

/-- `saveCheckpoint` (lines 122-504). -/
def saveCheckpoint (env : EngineEnv) (enableCheckpoints : Bool) (st : MgrState)
    (msgs : List ClineMessage) (isAttemptCompletionMessage : Bool)
    (completionMessageTs : Option Nat) (checkpointSummary : Option String) : SaveResult :=
  if !enableCheckpoints || hasTimeoutError st then ⟨st, msgs, []⟩
  else
    let msgs1 := clearCheckedOut msgs
    let p := saveInitStep env st isAttemptCompletionMessage
    if !p.1.checkpointTracker then ⟨p.1, msgs1, p.2⟩
    else if !isAttemptCompletionMessage then
      if lastIsCheckpointCreated msgs1 then ⟨p.1, msgs1, p.2⟩
      else
        let t := sayTs msgs1
        ⟨p.1, attachCommit env (msgs1 ++ [newCheckpointMessage t]) t, p.2 ++ [.commit]⟩
    else
      saveCompletionStep env p.1 msgs1 p.2 completionMessageTs checkpointSummary

/-- `commit` (lines 819-843): ensures initialization through
`checkpointTrackerCheckAndInit` and commits, returning the hash or `none`. -/
def commit (env : EngineEnv) (enableCheckpoints : Bool) (st : MgrState) :
    MgrState × List EngineCall × Option String :=
  if !enableCheckpoints then (st, [], none)
  else
    let p := if !st.checkpointTracker then checkpointTrackerCheckAndInit env st else (st, [])
    if !p.1.checkpointTracker then (p.1, p.2, none)
    else (p.1, p.2 ++ [.commit], env.commitHash)

/-!
## `restoreCheckpoint` (lines 513-659) and `handleSuccessfulRestore`
-/

/-- Restore modes (`ClineCheckpointRestore` from the shared webview types). -/
inductive ClineCheckpointRestore where
  | task
  | workspace
  | taskAndWorkspace
  deriving DecidableEq

/-- JS `arr[i]` for a possibly negative or out-of-range index. -/
def jsGet (msgs : List ClineMessage) (i : Int) : Option ClineMessage :=
  if i < 0 then none else msgs.get? i.toNat

/-- JS `findIndex`: first index satisfying the test, `-1` when none. -/
def jsFindIndex (msgs : List ClineMessage) (p : ClineMessage → Bool) : Int :=
  match msgs.findIdx? p with
  | some i => (i : Int)
  | none => -1

/-- `findLastIndex` from `@shared/array`, with the standard JS
`Array.prototype.findLastIndex` semantics it replicates: the last index
satisfying the test, `-1` when none. -/
def jsFindLastIndex (msgs : List ClineMessage) (p : ClineMessage → Bool) : Int :=
  match (msgs.enum.filter fun x => p x.2).getLast? with
  | some x => (x.1 : Int)
  | none => -1

/-- JS `arr.slice(0, e)` for a possibly negative end index. -/
def jsSliceTo (msgs : List ClineMessage) (e : Int) : List ClineMessage :=
  if e < 0 then msgs.take ((msgs.length : Int) + e).toNat else msgs.take e.toNat

/-- JS truthiness of the optional `offset` argument (`0` is falsy). -/
def jsTruthy (offset : Option Nat) : Bool :=
  match offset with
  | some n => n != 0
  | none => false

/-- Error shown when restoring with checkpoints disabled (line 539). -/
def checkpointsDisabledMessage : String := "Checkpoints are disabled in settings."

/-- The explicit error of the final else branch (line 622). -/
def noValidHashMessage : String := "Failed to restore checkpoint: No valid checkpoint hash found"

/-- Stands for the JavaScript `TypeError` text raised on reading
`lastCheckpointHash` from the `undefined` value `clineMessages[-1]`
(lines 587 and 602). -/
def typeErrorUndefinedHash : String :=
  "Cannot read properties of undefined (reading lastCheckpointHash)"

/-- Error shown when `resetHead` rejects on the direct or fallback branch
(lines 583, 617). -/
def resetFailedText (e : String) : String := "Failed to restore checkpoint: " ++ e

/-- Error shown when `resetHead` rejects on the offset branch (line 598). -/
def resetOffsetFailedText (e : String) : String := "Failed to restore offset checkpoint: " ++ e

/-- Informational message of the second switch of `handleSuccessfulRestore`
(lines 985-1004). -/
def restoreInfoMessage : ClineCheckpointRestore → String
  | .task => "Task messages have been restored to the checkpoint"
  | .workspace => "Workspace files have been restored to the checkpoint"
  | .taskAndWorkspace => "Task and workspace have been restored to the checkpoint"

/-- The `forEach` of lines 1014-1017: walks the log keeping a running index
`i` over `checkpoint_created` messages and sets each such message's
`isCheckpointCheckedOut` to `i == cur`. -/
def markCheckedOutAux (cur : Int) : Int → List ClineMessage → List ClineMessage
  | _, [] => []
  | i, m :: rest =>
    if m.say == some checkpointCreatedTag then
      { m with isCheckpointCheckedOut := some (i == cur) } :: markCheckedOutAux cur (i + 1) rest
    else
      m :: markCheckedOutAux cur i rest

/-- Lines 1006-1018: mark exactly the checkpoint message whose timestamp
matches the restore target as checked out, clearing all others. -/
def markCheckedOut (msgs : List ClineMessage) (messageTs : Nat) : List ClineMessage :=
  markCheckedOutAux
    (jsFindIndex (msgs.filter fun m => m.say == some checkpointCreatedTag)
      (fun m => m.ts == messageTs))
    0 msgs

/-- `handleSuccessfulRestore` (lines 930-1024) on the modelled state.
For the task-affecting modes it records the target's deleted range,
truncates the API history to `(conversationHistoryIndex || 0) + 2`,
truncates the log to the target index inclusive and appends the
discarded-requests ledger message; the workspace mode leaves all three
untouched.  For any mode other than `task` the checked-out flags are then
rewritten.  Returns the new state, log, API history and shown messages. -/
def handleSuccessfulRestore (st : MgrState) (msgs : List ClineMessage)
    (apiHistory : List Nat) (restoreType : ClineCheckpointRestore)
    (message : ClineMessage) (messageIndex : Nat) (messageTs : Nat) :
    MgrState × List ClineMessage × List Nat × List String :=
  let p :=
    match restoreType with
    | .task | .taskAndWorkspace =>
      let st1 := { st with conversationHistoryDeletedRange := message.conversationHistoryDeletedRange }
      let apiHistory1 := apiHistory.take (message.conversationHistoryIndex.getD 0 + 2)
      let kept := msgs.take (messageIndex + 1)
      (st1, kept ++ [deletedApiReqsMessage (sayTs kept)], apiHistory1)
    | .workspace => (st, msgs, apiHistory)
  let msgs2 :=
    if restoreType == ClineCheckpointRestore.task then p.2.1
    else markCheckedOut p.2.1 messageTs
  (p.1, msgs2, p.2.2, [restoreInfoMessage restoreType])

/-- Outcome of the workspace-affecting branch of the restore switch
(lines 536-630): normal completion carrying the `didWorkspaceRestoreFail`
flag, or a thrown `TypeError` escaping to the outer catch. -/
inductive WorkspaceStepResult where
  | ok (st : MgrState) (calls : List EngineCall) (shown : List String) (didFail : Bool)
  | thrown (st : MgrState) (calls : List EngineCall) (shown : List String) (err : String)
  deriving DecidableEq

/-- The lazy initialization of lines 549-571: attempted only when no tracker
and no recorded error exist; `CheckpointTracker.create` is called directly
(without the `pTimeout` ladder), a rejection is stored, shown and marks the
restore failed. -/
def restoreInitStep (env : EngineEnv) (st : MgrState) :
    MgrState × List EngineCall × List String × Bool :=
  if !st.checkpointTracker && st.checkpointManagerErrorMessage == none then
    if env.createOk then
      ({ st with checkpointTracker := true }, [.create], [], false)
    else
      ({ st with checkpointManagerErrorMessage := some env.createErrorMessage },
        [.create], [env.createErrorMessage], true)
  else (st, [], [], false)

/-- The fallback chain of lines 587-629, reached when the target's own hash
together with an available tracker did not apply.  Evaluating
`lastMessageWithHash.lastCheckpointHash` throws when `lastMessageWithHash`
is `undefined`; this happens both on the offset branch (truthy `offset`)
and on the no-offset fallback branch. -/
def restoreFallbackChain (env : EngineEnv) (st : MgrState) (calls : List EngineCall)
    (shown : List String) (didFail : Bool) (lastMessageWithHash : Option ClineMessage)
    (offset : Option Nat) : WorkspaceStepResult :=
  match lastMessageWithHash with
  | none => .thrown st calls shown typeErrorUndefinedHash
  | some fb =>
    match fb.lastCheckpointHash with
    | some fh =>
      if st.checkpointTracker then
        if env.resetOk then
          .ok st (calls ++ [.resetHead fh]) shown didFail
        else
          .ok st (calls ++ [.resetHead fh])
            (shown ++
              [if jsTruthy offset then resetOffsetFailedText env.resetErrorMessage
               else resetFailedText env.resetErrorMessage])
            true
      else .ok st calls (shown ++ [noValidHashMessage]) true
    | none => .ok st calls (shown ++ [noValidHashMessage]) true

/-- Lines 537-630: the `"workspace"` / `"taskAndWorkspace"` arm of the
restore switch. -/
def workspaceRestoreStep (env : EngineEnv) (enableCheckpoints : Bool) (st : MgrState)
    (message : ClineMessage) (lastMessageWithHash : Option ClineMessage)
    (offset : Option Nat) : WorkspaceStepResult :=
  if !enableCheckpoints then .ok st [] [checkpointsDisabledMessage] true
  else
    let i := restoreInitStep env st
    match message.lastCheckpointHash with
    | some h =>
      if i.1.checkpointTracker then
        if env.resetOk then .ok i.1 (i.2.1 ++ [.resetHead h]) i.2.2.1 i.2.2.2
        else
          .ok i.1 (i.2.1 ++ [.resetHead h])
            (i.2.2.1 ++ [resetFailedText env.resetErrorMessage]) true
      else restoreFallbackChain env i.1 i.2.1 i.2.2.1 i.2.2.2 lastMessageWithHash offset
    | none => restoreFallbackChain env i.1 i.2.1 i.2.2.1 i.2.2.2 lastMessageWithHash offset

/-- How one `restoreCheckpoint` call ended: missing target message,
workspace-restore failure, an escaped exception, or success. -/
inductive RestoreOutcome where
  | notFound
  | wsFailed
  | thrownErr
  | succeeded
  deriving DecidableEq

/-- `CheckpointRestoreStateUpdate` (lines 62-65). -/
structure CheckpointRestoreStateUpdate where
  conversationHistoryDeletedRange : Option (Nat × Nat)
  checkpointManagerErrorMessage : Option String
  deriving DecidableEq

/-- Result of one `restoreCheckpoint` call.  `relinquish` records whether
`sendRelinquishControlEvent` fired, `cancelledTask` whether the
success-path `cancelTask` callback ran. -/
structure RestoreResult where
  state : MgrState
  messages : List ClineMessage
  apiHistory : List Nat
  calls : List EngineCall
  shown : List String
  relinquish : Bool
  cancelledTask : Bool
  stateUpdate : CheckpointRestoreStateUpdate
  outcome : RestoreOutcome
  deriving DecidableEq

/-- Line 520: the index of the target message (`findIndex` minus
`offset || 0`), possibly negative. -/
def restoreTargetIndex (msgs : List ClineMessage) (messageTs : Nat) (offset : Option Nat) : Int :=
  jsFindIndex msgs (fun m => m.ts == messageTs) - ((offset.getD 0 : Nat) : Int)

/-- Lines 522-524: the last message strictly before the target index that
carries a `lastCheckpointHash` (`undefined` when there is none). -/
def restoreFallbackMessage (msgs : List ClineMessage) (messageTs : Nat)
    (offset : Option Nat) : Option ClineMessage :=
  jsGet msgs
    (jsFindLastIndex (jsSliceTo msgs (restoreTargetIndex msgs messageTs offset))
      (fun m => m.lastCheckpointHash.isSome))

/-- `restoreCheckpoint` (lines 513-659). -/
def restoreCheckpoint (env : EngineEnv) (enableCheckpoints : Bool) (st : MgrState)
    (msgs : List ClineMessage) (apiHistory : List Nat) (messageTs : Nat)
    (restoreType : ClineCheckpointRestore) (offset : Option Nat) : RestoreResult :=
  let messageIndex : Int := restoreTargetIndex msgs messageTs offset
  let lastMessageWithHash := restoreFallbackMessage msgs messageTs offset
  match jsGet msgs messageIndex with
  | none => ⟨st, msgs, apiHistory, [], [], false, false, ⟨none, none⟩, .notFound⟩
  | some message =>
    let ws :=
      match restoreType with
      | .task => WorkspaceStepResult.ok st [] [] false
      | _ => workspaceRestoreStep env enableCheckpoints st message lastMessageWithHash offset
    match ws with
    | .thrown st1 calls shown err =>
      ⟨st1, msgs, apiHistory, calls, shown, true, false, ⟨none, some err⟩, .thrownErr⟩
    | .ok st1 calls shown didFail =>
      if didFail then
        ⟨st1, msgs, apiHistory, calls, shown, true, false,
          ⟨none, st1.checkpointManagerErrorMessage⟩, .wsFailed⟩
      else
        let h := handleSuccessfulRestore st1 msgs apiHistory restoreType message
          messageIndex.toNat messageTs
        ⟨h.1, h.2.1, h.2.2.1, calls, shown ++ h.2.2.2, false, true,
          ⟨h.1.conversationHistoryDeletedRange, none⟩, .succeeded⟩

/-!
## `doesLatestTaskCompletionHaveNewChanges` (lines 849-924)
-/

/-- The previous-checkpoint resolution of lines 895-909: the hash of the
last completion-result message strictly before `messageIndex`, or else the
hash of the first `checkpoint_created` message. -/
def previousCheckpointHash (msgs : List ClineMessage) (messageIndex : Int) : Option String :=
  ((jsFindLast (jsSliceTo msgs messageIndex) fun m => m.say == some completionResultTag).bind
      fun m => m.lastCheckpointHash).orElse
    fun _ =>
      (msgs.find? fun m => m.say == some checkpointCreatedTag).bind fun m => m.lastCheckpointHash

/-- The lazy initialization of lines 870-888: attempted when no tracker and
no recorded error exist; `CheckpointTracker.create` is called directly and a
rejection is stored (the operation then answers `false`). -/
def changesInitStep (env : EngineEnv) (st : MgrState) : MgrState × List EngineCall :=
  if !st.checkpointTracker && st.checkpointManagerErrorMessage == none then
    if env.createOk then
      ({ st with checkpointTracker := true }, [.create])
    else
      ({ st with checkpointManagerErrorMessage := some env.createErrorMessage }, [.create])
  else (st, [])

/-- `doesLatestTaskCompletionHaveNewChanges` (lines 849-924): `true` iff the
changed-file count between the resolved previous checkpoint hash and the
latest completion-result message's hash is nonzero; any missing message,
missing hash or unavailable tracker yields `false`. -/
def doesLatestTaskCompletionHaveNewChanges (env : EngineEnv) (enableCheckpoints : Bool)
    (st : MgrState) (msgs : List ClineMessage) : MgrState × List EngineCall × Bool :=
  if !enableCheckpoints then (st, [], false)
  else
    let messageIndex := jsFindLastIndex msgs fun m => m.say == some completionResultTag
    match jsGet msgs messageIndex with
    | none => (st, [], false)
    | some message =>
      match message.lastCheckpointHash with
      | none => (st, [], false)
      | some hash =>
        let p := changesInitStep env st
        if !p.1.checkpointTracker then (p.1, p.2, false)
        else
          match previousCheckpointHash msgs messageIndex with
          | none => (p.1, p.2, false)
          | some prev =>
            (p.1, p.2 ++ [.getDiffCount prev hash], decide (0 < env.diffCount prev hash))

/-!
## Helper lemmas
-/

/-- A message with its checked-out flag erased; two logs with the same image
under this map differ at most in `isCheckpointCheckedOut` flags. -/
def stripCheckedOut (m : ClineMessage) : ClineMessage :=
  { m with isCheckpointCheckedOut := none }

theorem hasTimeoutError_ne_none {st : MgrState} (h : hasTimeoutError st = true) :
    (st.checkpointManagerErrorMessage == none) = false := by
  unfold hasTimeoutError at h
  cases hm : st.checkpointManagerErrorMessage with
  | none => rw [hm] at h; exact absurd h (by simp)
  | some m => rfl

theorem workspaceRestoreStep_sticky (env : EngineEnv) (enableCheckpoints : Bool)
    (st : MgrState) (message : ClineMessage) (fb : Option ClineMessage)
    (offset : Option Nat) (htr : st.checkpointTracker = false)
    (herr : (st.checkpointManagerErrorMessage == none) = false) :
    (∃ s, workspaceRestoreStep env enableCheckpoints st message fb offset =
        .ok st [] s true) ∨
    (∃ s e, workspaceRestoreStep env enableCheckpoints st message fb offset =
        .thrown st [] s e) := by
  have hinit : restoreInitStep env st = (st, [], [], false) := by
    unfold restoreInitStep
    rw [herr]
    simp
  cases enableCheckpoints with
  | false => exact Or.inl ⟨[checkpointsDisabledMessage], by simp [workspaceRestoreStep]⟩
  | true =>
    cases hm : message.lastCheckpointHash with
    | some h =>
      cases fb with
      | none =>
        exact Or.inr ⟨[], typeErrorUndefinedHash, by
          simp [workspaceRestoreStep, hinit, hm, restoreFallbackChain, htr]⟩
      | some f =>
        cases hf : f.lastCheckpointHash with
        | some fh =>
          exact Or.inl ⟨[noValidHashMessage], by
            simp [workspaceRestoreStep, hinit, hm, restoreFallbackChain, htr, hf]⟩
        | none =>
          exact Or.inl ⟨[noValidHashMessage], by
            simp [workspaceRestoreStep, hinit, hm, restoreFallbackChain, htr, hf]⟩
    | none =>
      cases fb with
      | none =>
        exact Or.inr ⟨[], typeErrorUndefinedHash, by
          simp [workspaceRestoreStep, hinit, hm, restoreFallbackChain, htr]⟩
      | some f =>
        cases hf : f.lastCheckpointHash with
        | some fh =>
          exact Or.inl ⟨[noValidHashMessage], by
            simp [workspaceRestoreStep, hinit, hm, restoreFallbackChain, htr, hf]⟩
        | none =>
          exact Or.inl ⟨[noValidHashMessage], by
            simp [workspaceRestoreStep, hinit, hm, restoreFallbackChain, htr, hf]⟩

theorem workspaceRestoreStep_sticky_ok (env : EngineEnv) (enableCheckpoints : Bool)
    (st : MgrState) (message : ClineMessage) (fb : Option ClineMessage)
    (offset : Option Nat) (htr : st.checkpointTracker = false)
    (herr : (st.checkpointManagerErrorMessage == none) = false)
    (st1 : MgrState) (calls : List EngineCall) (shown : List String) (didFail : Bool)
    (heq : workspaceRestoreStep env enableCheckpoints st message fb offset =
      .ok st1 calls shown didFail) :
    st1 = st ∧ calls = [] ∧ didFail = true := by
  rcases workspaceRestoreStep_sticky env enableCheckpoints st message fb offset htr herr with
    ⟨s, hs⟩ | ⟨s, e, hs⟩
  · rw [hs] at heq
    cases heq
    exact ⟨rfl, rfl, rfl⟩
  · rw [hs] at heq
    cases heq

theorem workspaceRestoreStep_sticky_thrown (env : EngineEnv) (enableCheckpoints : Bool)
    (st : MgrState) (message : ClineMessage) (fb : Option ClineMessage)
    (offset : Option Nat) (htr : st.checkpointTracker = false)
    (herr : (st.checkpointManagerErrorMessage == none) = false)
    (st1 : MgrState) (calls : List EngineCall) (shown : List String) (err : String)
    (heq : workspaceRestoreStep env enableCheckpoints st message fb offset =
      .thrown st1 calls shown err) :
    st1 = st ∧ calls = [] := by
  rcases workspaceRestoreStep_sticky env enableCheckpoints st message fb offset htr herr with
    ⟨s, hs⟩ | ⟨s, e, hs⟩
  · rw [hs] at heq
    cases heq
  · rw [hs] at heq
    cases heq
    exact ⟨rfl, rfl⟩

theorem restoreCheckpoint_sticky_frame (env : EngineEnv) (enableCheckpoints : Bool)
    (st : MgrState) (msgs : List ClineMessage) (apiHistory : List Nat) (messageTs : Nat)
    (restoreType : ClineCheckpointRestore) (offset : Option Nat)
    (hmode : restoreType ≠ ClineCheckpointRestore.task)
    (htr : st.checkpointTracker = false)
    (herr : (st.checkpointManagerErrorMessage == none) = false) :
    (restoreCheckpoint env enableCheckpoints st msgs apiHistory messageTs restoreType offset).calls = [] ∧
    (restoreCheckpoint env enableCheckpoints st msgs apiHistory messageTs restoreType offset).messages = msgs ∧
    (restoreCheckpoint env enableCheckpoints st msgs apiHistory messageTs restoreType offset).state = st ∧
    (restoreCheckpoint env enableCheckpoints st msgs apiHistory messageTs restoreType offset).apiHistory = apiHistory := by
  simp only [restoreCheckpoint]
  split
  · exact ⟨rfl, rfl, rfl, rfl⟩
  · cases restoreType with
    | task => exact absurd rfl hmode
    | workspace =>
      split
      · next st1 calls shown err heq =>
        obtain ⟨h1, h2⟩ := workspaceRestoreStep_sticky_thrown env enableCheckpoints st _ _
          offset htr herr st1 calls shown err heq
        exact ⟨h2, rfl, h1, rfl⟩
      · next st1 calls shown didFail heq =>
        obtain ⟨rfl, rfl, rfl⟩ := workspaceRestoreStep_sticky_ok env enableCheckpoints st _ _
          offset htr herr st1 calls shown didFail heq
        exact ⟨rfl, rfl, rfl, rfl⟩
    | taskAndWorkspace =>
      split
      · next st1 calls shown err heq =>
        obtain ⟨h1, h2⟩ := workspaceRestoreStep_sticky_thrown env enableCheckpoints st _ _
          offset htr herr st1 calls shown err heq
        exact ⟨h2, rfl, h1, rfl⟩
      · next st1 calls shown didFail heq =>
        obtain ⟨rfl, rfl, rfl⟩ := workspaceRestoreStep_sticky_ok env enableCheckpoints st _ _
          offset htr herr st1 calls shown didFail heq
        exact ⟨rfl, rfl, rfl, rfl⟩

/--
**C2.** Once the stored error message contains the fatal initialization
timeout, every subsequent `saveCheckpoint` call is an exact no-op (same
state, same log, zero engine calls), and every subsequent `restoreCheckpoint`
with mode `workspace` or `taskAndWorkspace` performs zero engine calls and
leaves the log and manager state unchanged.  The hypothesis that no tracker
handle exists is an invariant of the timeout state: the fatal message is
only ever stored by a failed initialization, which leaves the handle absent.
-/
theorem fatal_timeout_disables_checkpointing (env : EngineEnv) (enableCheckpoints : Bool)
    (st : MgrState) (msgs : List ClineMessage) (apiHistory : List Nat)
    (isAttemptCompletionMessage : Bool) (completionMessageTs : Option Nat)
    (checkpointSummary : Option String) (messageTs : Nat) (offset : Option Nat)
    (ht : hasTimeoutError st = true) (htr : st.checkpointTracker = false) :
    saveCheckpoint env enableCheckpoints st msgs isAttemptCompletionMessage
      completionMessageTs checkpointSummary = ⟨st, msgs, []⟩ ∧
    ((restoreCheckpoint env enableCheckpoints st msgs apiHistory messageTs .workspace offset).calls = [] ∧
      (restoreCheckpoint env enableCheckpoints st msgs apiHistory messageTs .workspace offset).messages = msgs ∧
      (restoreCheckpoint env enableCheckpoints st msgs apiHistory messageTs .workspace offset).state = st) ∧
    ((restoreCheckpoint env enableCheckpoints st msgs apiHistory messageTs .taskAndWorkspace offset).calls = [] ∧
      (restoreCheckpoint env enableCheckpoints st msgs apiHistory messageTs .taskAndWorkspace offset).messages = msgs ∧
      (restoreCheckpoint env enableCheckpoints st msgs apiHistory messageTs .taskAndWorkspace offset).state = st) := by
  refine ⟨?_, ?_, ?_⟩
  · unfold saveCheckpoint
    rw [ht]
    simp
  · have h := restoreCheckpoint_sticky_frame env enableCheckpoints st msgs apiHistory
      messageTs .workspace offset (by simp) htr (hasTimeoutError_ne_none ht)
    exact ⟨h.1, h.2.1, h.2.2.1⟩
  · have h := restoreCheckpoint_sticky_frame env enableCheckpoints st msgs apiHistory
      messageTs .taskAndWorkspace offset (by simp) htr (hasTimeoutError_ne_none ht)
    exact ⟨h.1, h.2.1, h.2.2.1⟩

/-- The manager state after a fatal initialization timeout. -/
def timedOutState : MgrState := ⟨none, false, some fatalTimeoutMessage⟩

/-- A generic non-timeout rejection text used by concrete runs. -/
def engineFailureText : String := "engine failure"

/-- A concrete commit hash used by concrete runs. -/
def commitHashText : String := "abc123"

/-- A concrete `resetHead` rejection text used by concrete runs. -/
def resetFailureText : String := "reset failed"

/-- A concrete generated summary used by concrete runs. -/
def summaryText : String := "summary"

/-- A benign engine oracle used by concrete runs. -/
def envOk : EngineEnv :=
  ⟨true, false, false, engineFailureText, some commitHashText, true, resetFailureText,
    summaryText, fun _ _ => 1⟩

/-- Witness for C2 on the timed-out state. -/
theorem fatal_timeout_disables_checkpointing_witness :
    saveCheckpoint envOk true timedOutState [] false none none = ⟨timedOutState, [], []⟩ ∧
    ((restoreCheckpoint envOk true timedOutState [] [] 1 .workspace none).calls = [] ∧
      (restoreCheckpoint envOk true timedOutState [] [] 1 .workspace none).messages = [] ∧
      (restoreCheckpoint envOk true timedOutState [] [] 1 .workspace none).state = timedOutState) ∧
    ((restoreCheckpoint envOk true timedOutState [] [] 1 .taskAndWorkspace none).calls = [] ∧
      (restoreCheckpoint envOk true timedOutState [] [] 1 .taskAndWorkspace none).messages = [] ∧
      (restoreCheckpoint envOk true timedOutState [] [] 1 .taskAndWorkspace none).state = timedOutState) :=
  fatal_timeout_disables_checkpointing envOk true timedOutState [] [] false none none 1 none
    (by decide) (by decide)

/--
**C3.** The claim states that after a timeout-class error no operation of
the manager ever attempts SnapshotStore initialization again; the
`checkpointTrackerCheckAndInit` comment ("If tracker already exists or there
was an error, return immediately") documents the same intent, but the code
checks only the tracker field.  Consequently `commit()` — which guards its
lazy initialization with nothing but the tracker check — calls
`CheckpointTracker.create` again on a task whose stored error is the fatal
timeout. -/
theorem commit_reattempts_create_after_timeout :
    hasTimeoutError timedOutState = true ∧
    timedOutState.checkpointTracker = false ∧
    EngineCall.create ∈ (commit envOk true timedOutState).2.1 := by
  refine ⟨by decide, rfl, ?_⟩
  decide

theorem markCheckedOutAux_strip (cur : Int) (l : List ClineMessage) : ∀ i,
    (markCheckedOutAux cur i l).map stripCheckedOut = l.map stripCheckedOut := by
  induction l with
  | nil => intro i; rfl
  | cons m rest ih =>
    intro i
    unfold markCheckedOutAux
    split
    · simp only [List.map_cons, ih]
      cases m
      rfl
    · simp only [List.map_cons, ih]

theorem markCheckedOut_strip (msgs : List ClineMessage) (messageTs : Nat) :
    (markCheckedOut msgs messageTs).map stripCheckedOut = msgs.map stripCheckedOut :=
  markCheckedOutAux_strip _ msgs 0

theorem handleSuccessfulRestore_workspace (st : MgrState) (msgs : List ClineMessage)
    (apiHistory : List Nat) (message : ClineMessage) (messageIndex : Nat) (messageTs : Nat) :
    handleSuccessfulRestore st msgs apiHistory .workspace message messageIndex messageTs =
      (st, markCheckedOut msgs messageTs, apiHistory, [restoreInfoMessage .workspace]) := rfl

/--
**C5.** A `restoreCheckpoint` with mode `task` never calls `resetHead`
(indeed it performs no engine call at all), and a `restoreCheckpoint` with
mode `workspace` never truncates the ConversationLog or the API
conversation history: the API history is returned unchanged and the log is
unchanged apart from `isCheckpointCheckedOut` flags.
-/
theorem restoreCheckpoint_frame (env : EngineEnv) (enableCheckpoints : Bool) (st : MgrState)
    (msgs : List ClineMessage) (apiHistory : List Nat) (messageTs : Nat) (offset : Option Nat) :
    (∀ h, EngineCall.resetHead h ∉
      (restoreCheckpoint env enableCheckpoints st msgs apiHistory messageTs .task offset).calls) ∧
    (restoreCheckpoint env enableCheckpoints st msgs apiHistory messageTs .workspace offset).apiHistory
      = apiHistory ∧
    (restoreCheckpoint env enableCheckpoints st msgs apiHistory messageTs .workspace offset).messages.map
      stripCheckedOut = msgs.map stripCheckedOut := by
  refine ⟨?_, ?_⟩
  · intro h
    have hcalls :
        (restoreCheckpoint env enableCheckpoints st msgs apiHistory messageTs .task offset).calls
          = [] := by
      simp only [restoreCheckpoint]
      split
      · rfl
      · rfl
    rw [hcalls]
    simp
  · simp only [restoreCheckpoint]
    split
    · exact ⟨rfl, rfl⟩
    · split
      · exact ⟨rfl, rfl⟩
      · next st1 calls shown didFail heq =>
        cases didFail with
        | true => exact ⟨rfl, rfl⟩
        | false =>
          rw [handleSuccessfulRestore_workspace]
          exact ⟨rfl, markCheckedOut_strip msgs messageTs⟩

theorem jsFindIndex_eq_neg_one (msgs : List ClineMessage) (messageTs : Nat)
    (h : ∀ m ∈ msgs, m.ts ≠ messageTs) :
    jsFindIndex msgs (fun m => m.ts == messageTs) = -1 := by
  unfold jsFindIndex
  have : msgs.findIdx? (fun m => m.ts == messageTs) = none := by
    rw [List.findIdx?_eq_none_iff]
    intro m hm
    simp only [beq_eq_false_iff_ne, ne_eq]
    exact h m hm
  rw [this]

/--
**C8 (amended).** A `restoreCheckpoint` whose timestamp matches no message
returns immediately with no engine call, no log or API-history mutation,
no state change and an empty state update — but, contrary to the claim's
"exactly on failure paths", without emitting the relinquish-control signal:
the signal fires exactly on the workspace-failure and escaped-exception
paths, and never on the success path.
-/
theorem restoreCheckpoint_missing_target_and_relinquish (env : EngineEnv)
    (enableCheckpoints : Bool) (st : MgrState) (msgs : List ClineMessage)
    (apiHistory : List Nat) (messageTs : Nat) (restoreType : ClineCheckpointRestore)
    (offset : Option Nat)
    (hmiss : ∀ m ∈ msgs, m.ts ≠ messageTs) :
    restoreCheckpoint env enableCheckpoints st msgs apiHistory messageTs restoreType offset =
      ⟨st, msgs, apiHistory, [], [], false, false, ⟨none, none⟩, .notFound⟩ ∧
    ∀ (enableCheckpoints2 : Bool) (st2 : MgrState) (msgs2 : List ClineMessage)
      (apiHistory2 : List Nat) (messageTs2 : Nat) (restoreType2 : ClineCheckpointRestore)
      (offset2 : Option Nat),
      ((restoreCheckpoint env enableCheckpoints2 st2 msgs2 apiHistory2 messageTs2 restoreType2
          offset2).relinquish = true ↔
        ((restoreCheckpoint env enableCheckpoints2 st2 msgs2 apiHistory2 messageTs2 restoreType2
            offset2).outcome = .wsFailed ∨
          (restoreCheckpoint env enableCheckpoints2 st2 msgs2 apiHistory2 messageTs2 restoreType2
            offset2).outcome = .thrownErr)) := by
  constructor
  · have hidx : jsFindIndex msgs (fun m => m.ts == messageTs) = -1 :=
      jsFindIndex_eq_neg_one msgs messageTs hmiss
    have hneg : restoreTargetIndex msgs messageTs offset < 0 := by
      unfold restoreTargetIndex
      rw [hidx]
      omega
    have hget : jsGet msgs (restoreTargetIndex msgs messageTs offset) = none := by
      unfold jsGet
      rw [if_pos hneg]
    simp only [restoreCheckpoint, hget]
  · intro e2 st2 msgs2 api2 ts2 rt2 off2
    simp only [restoreCheckpoint]
    split
    · simp
    · split
      · simp
      · next st1 calls shown didFail heq =>
        cases didFail with
        | true => simp
        | false => simp

/-!
## Hash resolution in the workspace restore branch (claim C4)
-/

/-- Whether a tracker handle is available after the lazy initialization of
lines 549-571: either it already existed, or no error was recorded and the
`create` call succeeds. -/
def trackerAfterRestoreInit (env : EngineEnv) (st : MgrState) : Bool :=
  st.checkpointTracker || (st.checkpointManagerErrorMessage == none && env.createOk)

theorem restoreInitStep_tracker (env : EngineEnv) (st : MgrState) :
    (restoreInitStep env st).1.checkpointTracker = trackerAfterRestoreInit env st := by
  unfold restoreInitStep trackerAfterRestoreInit
  cases htr : st.checkpointTracker <;> cases herr : st.checkpointManagerErrorMessage == none <;>
    cases hco : env.createOk <;> simp [htr, herr, hco]

theorem restoreInitStep_calls (env : EngineEnv) (st : MgrState) :
    (restoreInitStep env st).2.1 = [] ∨ (restoreInitStep env st).2.1 = [EngineCall.create] := by
  unfold restoreInitStep
  split
  · split
    · right; rfl
    · right; rfl
  · left; rfl

theorem workspaceRestoreStep_target_hash (env : EngineEnv) (st : MgrState)
    (message : ClineMessage) (fb : Option ClineMessage) (offset : Option Nat) (h : String)
    (hm : message.lastCheckpointHash = some h)
    (ht1 : trackerAfterRestoreInit env st = true) :
    ∃ st1 shown didFail,
      workspaceRestoreStep env true st message fb offset =
        .ok st1 ((restoreInitStep env st).2.1 ++ [.resetHead h]) shown didFail := by
  have htr1 : (restoreInitStep env st).1.checkpointTracker = true := by
    rw [restoreInitStep_tracker]; exact ht1
  cases hro : env.resetOk with
  | false =>
    exact ⟨(restoreInitStep env st).1,
      (restoreInitStep env st).2.2.1 ++ [resetFailedText env.resetErrorMessage], true,
      by simp [workspaceRestoreStep, hm, htr1, hro]⟩
  | true =>
    exact ⟨(restoreInitStep env st).1, (restoreInitStep env st).2.2.1,
      (restoreInitStep env st).2.2.2, by simp [workspaceRestoreStep, hm, htr1, hro]⟩

theorem workspaceRestoreStep_thrown_of_no_fallback (env : EngineEnv) (st : MgrState)
    (message : ClineMessage) (offset : Option Nat)
    (hnc : message.lastCheckpointHash = none ∨ trackerAfterRestoreInit env st = false) :
    ∃ st1 calls shown,
      workspaceRestoreStep env true st message none offset =
        .thrown st1 calls shown typeErrorUndefinedHash := by
  rcases hnc with hm | ht1
  · exact ⟨(restoreInitStep env st).1, (restoreInitStep env st).2.1,
      (restoreInitStep env st).2.2.1,
      by simp [workspaceRestoreStep, restoreFallbackChain, hm]⟩
  · have htr1 : (restoreInitStep env st).1.checkpointTracker = false := by
      rw [restoreInitStep_tracker]; exact ht1
    cases hm : message.lastCheckpointHash with
    | none =>
      exact ⟨(restoreInitStep env st).1, (restoreInitStep env st).2.1,
        (restoreInitStep env st).2.2.1,
        by simp [workspaceRestoreStep, restoreFallbackChain, hm]⟩
    | some h =>
      exact ⟨(restoreInitStep env st).1, (restoreInitStep env st).2.1,
        (restoreInitStep env st).2.2.1,
        by simp [workspaceRestoreStep, restoreFallbackChain, hm, htr1]⟩

theorem workspaceRestoreStep_fallback_hash (env : EngineEnv) (st : MgrState)
    (message : ClineMessage) (f : ClineMessage) (offset : Option Nat) (fh : String)
    (hm : message.lastCheckpointHash = none)
    (hfh : f.lastCheckpointHash = some fh)
    (ht1 : trackerAfterRestoreInit env st = true) :
    ∃ st1 shown didFail,
      workspaceRestoreStep env true st message (some f) offset =
        .ok st1 ((restoreInitStep env st).2.1 ++ [.resetHead fh]) shown didFail := by
  have htr1 : (restoreInitStep env st).1.checkpointTracker = true := by
    rw [restoreInitStep_tracker]; exact ht1
  cases hro : env.resetOk with
  | false =>
    exact ⟨(restoreInitStep env st).1,
      (restoreInitStep env st).2.2.1 ++
        [if jsTruthy offset = true then resetOffsetFailedText env.resetErrorMessage
          else resetFailedText env.resetErrorMessage], true,
      by simp [workspaceRestoreStep, restoreFallbackChain, hm, hfh, htr1, hro]⟩
  | true =>
    exact ⟨(restoreInitStep env st).1, (restoreInitStep env st).2.2.1,
      (restoreInitStep env st).2.2.2,
      by simp [workspaceRestoreStep, restoreFallbackChain, hm, hfh, htr1, hro]⟩

theorem workspaceRestoreStep_no_tracker_fallback (env : EngineEnv) (st : MgrState)
    (message : ClineMessage) (f : ClineMessage) (offset : Option Nat)
    (ht1 : trackerAfterRestoreInit env st = false) :
    workspaceRestoreStep env true st message (some f) offset =
      .ok (restoreInitStep env st).1 (restoreInitStep env st).2.1
        ((restoreInitStep env st).2.2.1 ++ [noValidHashMessage]) true := by
  have htr1 : (restoreInitStep env st).1.checkpointTracker = false := by
    rw [restoreInitStep_tracker]; exact ht1
  cases hm : message.lastCheckpointHash with
  | none =>
    cases hfh : f.lastCheckpointHash <;>
      simp [workspaceRestoreStep, restoreFallbackChain, hm, hfh, htr1]
  | some h =>
    cases hfh : f.lastCheckpointHash <;>
      simp [workspaceRestoreStep, restoreFallbackChain, hm, hfh, htr1]

/--
**C4 (amended).** In a workspace restore with an existing target message,
the hash passed to `resetHead` is resolved as: (i) the (offset-adjusted)
target message's own hash whenever it is present and a tracker is available
— regardless of whether `offset` is set; (ii) otherwise the fallback
message's hash when a tracker is available (the degraded no-offset variant
of this path logs a warning).  When no earlier message carries a hash and
the target's own hash does not apply, the call aborts with a thrown
`TypeError` (surfaced as a generic caught error), not with the explicit
"no valid checkpoint hash found" notification; that explicit notification
is shown exactly when a fallback message exists but no tracker is
available, in which case no `resetHead` happens and control is
relinquished.
-/
theorem restoreCheckpoint_workspace_hash_resolution (env : EngineEnv) (st : MgrState)
    (msgs : List ClineMessage) (apiHistory : List Nat) (messageTs : Nat)
    (offset : Option Nat) (message : ClineMessage)
    (hmsg : jsGet msgs (restoreTargetIndex msgs messageTs offset) = some message) :
    (∀ h, message.lastCheckpointHash = some h → trackerAfterRestoreInit env st = true →
      (restoreCheckpoint env true st msgs apiHistory messageTs .workspace offset).calls.getLast?
        = some (.resetHead h)) ∧
    (restoreFallbackMessage msgs messageTs offset = none →
      (message.lastCheckpointHash = none ∨ trackerAfterRestoreInit env st = false) →
      (restoreCheckpoint env true st msgs apiHistory messageTs .workspace offset).outcome
          = .thrownErr ∧
        (restoreCheckpoint env true st msgs apiHistory messageTs .workspace
            offset).stateUpdate.checkpointManagerErrorMessage = some typeErrorUndefinedHash) ∧
    (∀ f fh, message.lastCheckpointHash = none →
      restoreFallbackMessage msgs messageTs offset = some f →
      f.lastCheckpointHash = some fh → trackerAfterRestoreInit env st = true →
      (restoreCheckpoint env true st msgs apiHistory messageTs .workspace offset).calls.getLast?
        = some (.resetHead fh)) ∧
    (∀ f, restoreFallbackMessage msgs messageTs offset = some f →
      trackerAfterRestoreInit env st = false →
      noValidHashMessage ∈
          (restoreCheckpoint env true st msgs apiHistory messageTs .workspace offset).shown ∧
        (∀ h2, EngineCall.resetHead h2 ∉
          (restoreCheckpoint env true st msgs apiHistory messageTs .workspace offset).calls) ∧
        (restoreCheckpoint env true st msgs apiHistory messageTs .workspace offset).relinquish
          = true) := by
  refine ⟨?_, ?_, ?_, ?_⟩
  · intro h hm ht1
    obtain ⟨st1, shown, didFail, hws⟩ := workspaceRestoreStep_target_hash env st message
      (restoreFallbackMessage msgs messageTs offset) offset h hm ht1
    have hcalls :
        (restoreCheckpoint env true st msgs apiHistory messageTs .workspace offset).calls =
          (restoreInitStep env st).2.1 ++ [.resetHead h] := by
      simp only [restoreCheckpoint, hmsg, hws]
      cases didFail <;> rfl
    rw [hcalls, List.getLast?_concat]
  · intro hfb hnc
    obtain ⟨st1, calls, shown, hws⟩ :=
      workspaceRestoreStep_thrown_of_no_fallback env st message offset hnc
    constructor <;> simp only [restoreCheckpoint, hmsg, hfb, hws]
  · intro f fh hm hfb hfh ht1
    obtain ⟨st1, shown, didFail, hws⟩ :=
      workspaceRestoreStep_fallback_hash env st message f offset fh hm hfh ht1
    have hcalls :
        (restoreCheckpoint env true st msgs apiHistory messageTs .workspace offset).calls =
          (restoreInitStep env st).2.1 ++ [.resetHead fh] := by
      simp only [restoreCheckpoint, hmsg, hfb, hws]
      cases didFail <;> rfl
    rw [hcalls, List.getLast?_concat]
  · intro f hfb ht1
    have hws := workspaceRestoreStep_no_tracker_fallback env st message f offset ht1
    refine ⟨?_, ?_, ?_⟩
    · simp only [restoreCheckpoint, hmsg, hfb, hws]
      simp
    · intro h2
      simp only [restoreCheckpoint, hmsg, hfb, hws]
      rcases restoreInitStep_calls env st with hc | hc <;> rw [hc] <;> simp
    · simp only [restoreCheckpoint, hmsg, hfb, hws]
      simp

/-!
## Concrete scenarios
-/

/-- A concrete checkpoint hash `H1`. -/
def hashH1 : String := "H1"

/-- A concrete checkpoint hash `HA`. -/
def hashA : String := "HA"

/-- A concrete checkpoint hash `HB`. -/
def hashB : String := "HB"

/-- Text message at timestamp 1. -/
def msgText1 : ClineMessage := ⟨1, some textTag, none, none, none, none, none⟩

/-- Checkpoint marker at timestamp 2 carrying hash `H1`. -/
def msgCp2 : ClineMessage := ⟨2, some checkpointCreatedTag, some hashH1, none, none, none, none⟩

/-- Text message at timestamp 3. -/
def msgText3 : ClineMessage := ⟨3, some textTag, none, none, none, none, none⟩

/-- The three-message log of the C6 scenario. -/
def scenarioLog : List ClineMessage := [msgText1, msgCp2, msgText3]

/-- A manager state whose tracker handle exists and no error is recorded. -/
def stReady : MgrState := ⟨none, true, none⟩

/-- Message at timestamp 1 carrying hash `HA`. -/
def msgHashA : ClineMessage := ⟨1, some textTag, some hashA, none, none, none, none⟩

/-- Message at timestamp 2 carrying hash `HB`. -/
def msgHashB : ClineMessage := ⟨2, some textTag, some hashB, none, none, none, none⟩

/-- Log used for the offset counterexample of C4. -/
def offsetLog : List ClineMessage := [msgHashA, msgHashB, msgText3]

/--
**C4 (counterexample).** Two concrete refutations of the claimed hash
resolution order.  First: with `offset = 1` and an offset-adjusted target
that itself carries hash `HB` while the earlier fallback message carries
`HA`, the code resets to `HB` (the target's own hash), not to the fallback
hash the claim prescribes for the offset case.  Second: on a log where no
message carries any hash, the call does not fail with the explicit
"no valid checkpoint hash found" error — it aborts with a thrown
`TypeError` from reading `lastCheckpointHash` of `undefined`.
-/
theorem restore_hash_resolution_counterexample :
    ((restoreCheckpoint envOk true stReady offsetLog [] 3 .workspace (some 1)).calls =
        [.resetHead hashB] ∧
      EngineCall.resetHead hashA ∉
        (restoreCheckpoint envOk true stReady offsetLog [] 3 .workspace (some 1)).calls) ∧
    ((restoreCheckpoint envOk true stReady [msgText1] [] 1 .workspace none).outcome
        = .thrownErr ∧
      (restoreCheckpoint envOk true stReady [msgText1] [] 1 .workspace
          none).stateUpdate.checkpointManagerErrorMessage = some typeErrorUndefinedHash ∧
      noValidHashMessage ∉
        (restoreCheckpoint envOk true stReady [msgText1] [] 1 .workspace none).shown) := by
  decide

/-- Witness for the amended C4 at the offset scenario: the reset goes to the
target's own hash `HB`. -/
theorem restoreCheckpoint_workspace_hash_resolution_witness :
    (restoreCheckpoint envOk true stReady offsetLog [] 3 .workspace (some 1)).calls.getLast?
      = some (.resetHead hashB) :=
  (restoreCheckpoint_workspace_hash_resolution envOk stReady offsetLog [] 3 (some 1) msgHashB
      (by decide)).1 hashB (by decide) (by decide)

/--
**C6 (counterexample).** On the log
`[text@1, checkpoint-created@2 (H1), text@3]`, restoring to `t2` with mode
`task` does not leave the log equal to exactly `[msg@t1, msg@t2]`: the
discarded-requests ledger message is appended as well.  No SnapshotStore
call is made.
-/
theorem restore_task_scenario_counterexample :
    (restoreCheckpoint envOk true stReady scenarioLog [] 2 .task none).messages
        ≠ [msgText1, msgCp2] ∧
    (restoreCheckpoint envOk true stReady scenarioLog [] 2 .task none).calls = [] := by
  decide

/--
**C6 (amended).** On the log `[text@1, checkpoint-created@2 (H1), text@3]`,
restoring to `t2` with mode `task` truncates the log to `[msg@t1, msg@t2]`
followed by the appended discarded-requests ledger message, and makes no
SnapshotStore call of any kind.
-/
theorem restore_task_scenario :
    (restoreCheckpoint envOk true stReady scenarioLog [] 2 .task none).messages
        = [msgText1, msgCp2, deletedApiReqsMessage 3] ∧
    (restoreCheckpoint envOk true stReady scenarioLog [] 2 .task none).calls = [] := by
  decide

/--
**C8 (counterexample).** A `restoreCheckpoint` whose timestamp matches no
message is the immediate failure the claim describes, yet the
relinquish-control signal is not emitted on this failure path — refuting
"emitted exactly on failure paths".
-/
theorem restore_missing_relinquish_counterexample :
    (restoreCheckpoint envOk true stReady [msgText1] [] 99 .workspace none).outcome
        = .notFound ∧
    (restoreCheckpoint envOk true stReady [msgText1] [] 99 .workspace none).relinquish
        = false := by
  decide

/-- Witness for the amended C8: the missing-target call at timestamp 99
returns the side-effect-free not-found result. -/
theorem restoreCheckpoint_missing_target_and_relinquish_witness :
    restoreCheckpoint envOk true stReady [msgText1] [] 99 .workspace none =
      ⟨stReady, [msgText1], [], [], [], false, false, ⟨none, none⟩, .notFound⟩ :=
  (restoreCheckpoint_missing_target_and_relinquish envOk true stReady [msgText1] [] 99
      .workspace none (by decide)).1

/-!
## Message-kind bookkeeping for `saveCheckpoint`
-/

/-- The kind tag and checked-out flag of a message. -/
def sayFlag (m : ClineMessage) : Option String × Option Bool :=
  (m.say, m.isCheckpointCheckedOut)

/-- The sequence of kind tags of a log. -/
def saysOf (msgs : List ClineMessage) : List (Option String) :=
  msgs.map fun m => m.say

/-- Number of `checkpoint_created` marker messages in a log. -/
def countCheckpointCreated (msgs : List ClineMessage) : Nat :=
  (msgs.filter fun m => m.say == some checkpointCreatedTag).length

/-- Whether two entries equal to `some tag` appear consecutively. -/
def hasConsecutive (tag : String) : List (Option String) → Bool
  | a :: b :: rest => (a == some tag && b == some tag) || hasConsecutive tag (b :: rest)
  | _ => false

/-- Whether a `checkpoint_created` message immediately follows another one. -/
def hasBackToBackCheckpoints (msgs : List ClineMessage) : Bool :=
  hasConsecutive checkpointCreatedTag (saysOf msgs)

theorem saysOf_map_of_preserve (f : ClineMessage → ClineMessage)
    (hf : ∀ m, (f m).say = m.say) (msgs : List ClineMessage) :
    saysOf (msgs.map f) = saysOf msgs := by
  induction msgs with
  | nil => rfl
  | cons m t ih =>
    show (f m).say :: saysOf (t.map f) = m.say :: saysOf t
    rw [hf m, ih]

theorem sayFlag_map_of_preserve (f : ClineMessage → ClineMessage)
    (hf : ∀ m, sayFlag (f m) = sayFlag m) (msgs : List ClineMessage) :
    (msgs.map f).map sayFlag = msgs.map sayFlag := by
  induction msgs with
  | nil => rfl
  | cons m t ih =>
    show sayFlag (f m) :: (t.map f).map sayFlag = sayFlag m :: t.map sayFlag
    rw [hf m, ih]

theorem saysOf_clearCheckedOut (msgs : List ClineMessage) :
    saysOf (clearCheckedOut msgs) = saysOf msgs := by
  refine saysOf_map_of_preserve _ ?_ msgs
  intro m
  cases m
  dsimp
  split <;> rfl

theorem clearCheckedOut_length (msgs : List ClineMessage) :
    (clearCheckedOut msgs).length = msgs.length := List.length_map _ _

theorem clearCheckedOut_take (msgs : List ClineMessage) :
    (clearCheckedOut msgs).take msgs.length = clearCheckedOut msgs := by
  rw [← clearCheckedOut_length msgs]
  exact List.take_length _

theorem attachCommit_sayFlag (env : EngineEnv) (msgs : List ClineMessage) (t : Nat) :
    (attachCommit env msgs t).map sayFlag = msgs.map sayFlag := by
  unfold attachCommit
  cases env.commitHash with
  | none => rfl
  | some h =>
    refine sayFlag_map_of_preserve _ ?_ msgs
    intro m
    cases m
    dsimp [sayFlag]
    split <;> rfl

theorem attachCommit_saysOf (env : EngineEnv) (msgs : List ClineMessage) (t : Nat) :
    saysOf (attachCommit env msgs t) = saysOf msgs := by
  unfold attachCommit
  cases env.commitHash with
  | none => rfl
  | some h =>
    refine saysOf_map_of_preserve _ ?_ msgs
    intro m
    cases m
    dsimp
    split <;> rfl

theorem countCheckpointCreated_says (msgs : List ClineMessage) :
    countCheckpointCreated msgs =
      ((saysOf msgs).filter fun s => s == some checkpointCreatedTag).length := by
  unfold countCheckpointCreated saysOf
  rw [List.filter_map, List.length_map]
  rfl

theorem countCp_congr_saysOf (l ms : List ClineMessage) (h : saysOf l = saysOf ms) :
    countCheckpointCreated l = countCheckpointCreated ms := by
  rw [countCheckpointCreated_says, countCheckpointCreated_says, h]

theorem countCp_of_saysOf_append_cp (l ms : List ClineMessage)
    (h : saysOf l = saysOf ms ++ [some checkpointCreatedTag]) :
    countCheckpointCreated l = countCheckpointCreated ms + 1 := by
  rw [countCheckpointCreated_says, countCheckpointCreated_says, h, List.filter_append]
  simp

theorem lastIsCheckpointCreated_says (msgs : List ClineMessage) :
    lastIsCheckpointCreated msgs =
      (match (saysOf msgs).getLast? with
        | some s => s == some checkpointCreatedTag
        | none => false) := by
  unfold lastIsCheckpointCreated saysOf
  rw [List.getLast?_map]
  cases msgs.getLast? <;> rfl

theorem hasConsecutive_append_last (tag : String) (xs : List (Option String))
    (v : Option String) (h : hasConsecutive tag xs = false)
    (hl : ∀ s, xs.getLast? = some s → (s == some tag) = false) :
    hasConsecutive tag (xs ++ [v]) = false := by
  induction xs with
  | nil => rfl
  | cons a t ih =>
    cases t with
    | nil =>
      have ha := hl a rfl
      show ((a == some tag && v == some tag) || hasConsecutive tag [v]) = false
      rw [ha]
      rfl
    | cons b r =>
      have hsplit : (a == some tag && b == some tag) = false ∧
          hasConsecutive tag (b :: r) = false := by
        have h' : ((a == some tag && b == some tag) || hasConsecutive tag (b :: r)) = false := h
        simpa using h'
      have hl2 : ∀ s, (b :: r).getLast? = some s → (s == some tag) = false := by
        intro s hs
        exact hl s (by rw [List.getLast?_cons_cons]; exact hs)
      show ((a == some tag && b == some tag) || hasConsecutive tag (b :: r ++ [v])) = false
      rw [hsplit.1, ih hsplit.2 hl2]
      rfl

/-!
## Characterization of `saveCheckpoint` branches
-/

theorem saveCheckpoint_guard (env : EngineEnv) (enableCheckpoints : Bool) (st : MgrState)
    (msgs : List ClineMessage) (ia : Bool) (cts : Option Nat) (cs : Option String)
    (h : (!enableCheckpoints || hasTimeoutError st) = true) :
    saveCheckpoint env enableCheckpoints st msgs ia cts cs = ⟨st, msgs, []⟩ := by
  unfold saveCheckpoint
  rw [h]
  rfl

theorem saveCompletionStep_state (env : EngineEnv) (st : MgrState) (msgs : List ClineMessage)
    (calls : List EngineCall) (cts : Option Nat) (cs : Option String) :
    (saveCompletionStep env st msgs calls cts cs).state = st := by
  unfold saveCompletionStep
  dsimp only
  split
  all_goals try split
  all_goals try split
  all_goals rfl

theorem saveCompletionStep_messages_sayFlag (env : EngineEnv) (st : MgrState)
    (msgs : List ClineMessage) (calls : List EngineCall) (cts : Option Nat)
    (cs : Option String) :
    (saveCompletionStep env st msgs calls cts cs).messages.map sayFlag = msgs.map sayFlag := by
  unfold saveCompletionStep
  dsimp only
  split
  all_goals try split
  all_goals try split
  all_goals try rfl
  all_goals
    refine sayFlag_map_of_preserve _ ?_ msgs
  all_goals
    intro m
  all_goals
    cases m
  all_goals
    dsimp [sayFlag]
  all_goals
    split <;> rfl

theorem saveInitStep_eq (env : EngineEnv) (st : MgrState) (ia : Bool) :
    saveInitStep env st ia = (st, []) ∨
      saveInitStep env st ia = checkpointTrackerCheckAndInit env st := by
  unfold saveInitStep
  split
  · right; rfl
  · split
    · right; rfl
    · left; rfl

theorem saveCheckpoint_state_eq (env : EngineEnv) (enableCheckpoints : Bool) (st : MgrState)
    (msgs : List ClineMessage) (ia : Bool) (cts : Option Nat) (cs : Option String)
    (hg : (!enableCheckpoints || hasTimeoutError st) = false) :
    (saveCheckpoint env enableCheckpoints st msgs ia cts cs).state =
      (saveInitStep env st ia).1 := by
  simp only [saveCheckpoint, hg, Bool.false_eq_true, if_false]
  split
  · rfl
  · split
    · split
      · rfl
      · rfl
    · rw [saveCompletionStep_state]

theorem saveCheckpoint_nonCompletion_messages (env : EngineEnv) (enableCheckpoints : Bool)
    (st : MgrState) (msgs : List ClineMessage) (cts : Option Nat) (cs : Option String)
    (hg : (!enableCheckpoints || hasTimeoutError st) = false) :
    ((saveInitStep env st false).1.checkpointTracker = false ∧
      (saveCheckpoint env enableCheckpoints st msgs false cts cs).messages
        = clearCheckedOut msgs) ∨
    ((saveInitStep env st false).1.checkpointTracker = true ∧
      lastIsCheckpointCreated (clearCheckedOut msgs) = true ∧
      (saveCheckpoint env enableCheckpoints st msgs false cts cs).messages
        = clearCheckedOut msgs) ∨
    ((saveInitStep env st false).1.checkpointTracker = true ∧
      lastIsCheckpointCreated (clearCheckedOut msgs) = false ∧
      (saveCheckpoint env enableCheckpoints st msgs false cts cs).messages =
        attachCommit env
          (clearCheckedOut msgs ++ [newCheckpointMessage (sayTs (clearCheckedOut msgs))])
          (sayTs (clearCheckedOut msgs))) := by
  cases htr : (saveInitStep env st false).1.checkpointTracker with
  | false =>
    left
    exact ⟨rfl, by simp [saveCheckpoint, hg, htr]⟩
  | true =>
    cases hdup : lastIsCheckpointCreated (clearCheckedOut msgs) with
    | true =>
      right; left
      exact ⟨rfl, rfl, by simp [saveCheckpoint, hg, htr, hdup]⟩
    | false =>
      right; right
      exact ⟨rfl, rfl, by simp [saveCheckpoint, hg, htr, hdup]⟩

theorem saveCheckpoint_completion_messages (env : EngineEnv) (enableCheckpoints : Bool)
    (st : MgrState) (msgs : List ClineMessage) (cts : Option Nat) (cs : Option String)
    (hg : (!enableCheckpoints || hasTimeoutError st) = false) :
    ((saveInitStep env st true).1.checkpointTracker = false ∧
      (saveCheckpoint env enableCheckpoints st msgs true cts cs).messages
        = clearCheckedOut msgs) ∨
    ((saveInitStep env st true).1.checkpointTracker = true ∧
      (saveCheckpoint env enableCheckpoints st msgs true cts cs).messages =
        (saveCompletionStep env (saveInitStep env st true).1 (clearCheckedOut msgs)
          (saveInitStep env st true).2 cts cs).messages) := by
  cases htr : (saveInitStep env st true).1.checkpointTracker with
  | false => left; exact ⟨rfl, by simp [saveCheckpoint, hg, htr]⟩
  | true => right; exact ⟨rfl, by simp [saveCheckpoint, hg, htr]⟩

theorem guard_off_of (enableCheckpoints : Bool) (st : MgrState)
    (hen : enableCheckpoints = true) (hte : hasTimeoutError st = false) :
    (!enableCheckpoints || hasTimeoutError st) = false := by
  rw [hen, hte]
  rfl

/--
**C10.** On every `saveCheckpoint` call with checkpoints enabled and no
recorded timeout-class error, the `isCheckpointCheckedOut` flag of every
existing `checkpoint_created` message is cleared before the tracker
initialization and the duplicate-suppression check run: the surviving
images of the input messages carry exactly the cleared flags, and a call
that creates no checkpoint — tracker unavailable after a failed
initialization, or suppressed as a duplicate — still returns the log with
the flags cleared.
-/
theorem saveCheckpoint_clears_checked_out (env : EngineEnv) (enableCheckpoints : Bool)
    (st : MgrState) (msgs : List ClineMessage) (ia : Bool) (cts : Option Nat)
    (cs : Option String) (hen : enableCheckpoints = true)
    (hte : hasTimeoutError st = false) :
    ((saveCheckpoint env enableCheckpoints st msgs ia cts cs).messages.take msgs.length).map
        sayFlag = (clearCheckedOut msgs).map sayFlag ∧
    ((saveCheckpoint env enableCheckpoints st msgs ia cts cs).state.checkpointTracker = false →
      (saveCheckpoint env enableCheckpoints st msgs ia cts cs).messages
        = clearCheckedOut msgs) ∧
    (ia = false → lastIsCheckpointCreated (clearCheckedOut msgs) = true →
      (saveCheckpoint env enableCheckpoints st msgs ia cts cs).messages
        = clearCheckedOut msgs) := by
  have hg := guard_off_of enableCheckpoints st hen hte
  have hst := saveCheckpoint_state_eq env enableCheckpoints st msgs ia cts cs hg
  cases ia with
  | false =>
    rcases saveCheckpoint_nonCompletion_messages env enableCheckpoints st msgs cts cs hg with
      ⟨htr, hmsg⟩ | ⟨htr, hdup, hmsg⟩ | ⟨htr, hdup, hmsg⟩
    · refine ⟨?_, fun _ => hmsg, fun _ _ => hmsg⟩
      rw [hmsg, clearCheckedOut_take]
    · refine ⟨?_, fun _ => hmsg, fun _ _ => hmsg⟩
      rw [hmsg, clearCheckedOut_take]
    · refine ⟨?_, ?_, ?_⟩
      · rw [hmsg, List.map_take, attachCommit_sayFlag, List.map_append]
        have hlen : ((clearCheckedOut msgs).map sayFlag).length = msgs.length := by
          rw [List.length_map, clearCheckedOut_length]
        rw [List.take_left' hlen]
      · intro hfalse
        rw [hst, htr] at hfalse
        cases hfalse
      · intro _ hduptrue
        rw [hduptrue] at hdup
        cases hdup
  | true =>
    rcases saveCheckpoint_completion_messages env enableCheckpoints st msgs cts cs hg with
      ⟨htr, hmsg⟩ | ⟨htr, hmsg⟩
    · refine ⟨?_, fun _ => hmsg, fun hia _ => by cases hia⟩
      rw [hmsg, clearCheckedOut_take]
    · refine ⟨?_, ?_, fun hia _ => by cases hia⟩
      · rw [hmsg, List.map_take, saveCompletionStep_messages_sayFlag]
        have hlen : msgs.length = ((clearCheckedOut msgs).map sayFlag).length := by
          rw [List.length_map, clearCheckedOut_length]
        rw [hlen, List.take_length]
      · intro hfalse
        rw [hst, htr] at hfalse
        cases hfalse

/-- Witness for C10: a call on a log with one previously checked-out
checkpoint message, suppressed as a duplicate, still clears the flag. -/
theorem saveCheckpoint_clears_checked_out_witness :
    (((saveCheckpoint envOk true stReady
        [⟨2, some checkpointCreatedTag, some hashH1, some true, none, none, none⟩]
        false none none).messages.take 1).map sayFlag =
      (clearCheckedOut
        [⟨2, some checkpointCreatedTag, some hashH1, some true, none, none, none⟩]).map
        sayFlag) ∧
    (false = false →
      lastIsCheckpointCreated (clearCheckedOut
        [⟨2, some checkpointCreatedTag, some hashH1, some true, none, none, none⟩]) = true →
      (saveCheckpoint envOk true stReady
        [⟨2, some checkpointCreatedTag, some hashH1, some true, none, none, none⟩]
        false none none).messages =
        clearCheckedOut
          [⟨2, some checkpointCreatedTag, some hashH1, some true, none, none, none⟩]) :=
  ⟨(saveCheckpoint_clears_checked_out envOk true stReady
      [⟨2, some checkpointCreatedTag, some hashH1, some true, none, none, none⟩]
      false none none rfl (by decide)).1,
    (saveCheckpoint_clears_checked_out envOk true stReady
      [⟨2, some checkpointCreatedTag, some hashH1, some true, none, none, none⟩]
      false none none rfl (by decide)).2.2⟩

theorem saveCheckpoint_nonCompletion_saysOf (env : EngineEnv) (enableCheckpoints : Bool)
    (st : MgrState) (msgs : List ClineMessage) (cts : Option Nat) (cs : Option String) :
    saysOf (saveCheckpoint env enableCheckpoints st msgs false cts cs).messages
        = saysOf msgs ∨
    (saysOf (saveCheckpoint env enableCheckpoints st msgs false cts cs).messages =
        saysOf msgs ++ [some checkpointCreatedTag] ∧
      lastIsCheckpointCreated (clearCheckedOut msgs) = false ∧
      (!enableCheckpoints || hasTimeoutError st) = false ∧
      (saveInitStep env st false).1.checkpointTracker = true) := by
  cases hg : (!enableCheckpoints || hasTimeoutError st) with
  | true =>
    left
    rw [saveCheckpoint_guard env enableCheckpoints st msgs false cts cs hg]
  | false =>
    rcases saveCheckpoint_nonCompletion_messages env enableCheckpoints st msgs cts cs hg with
      ⟨htr, hmsg⟩ | ⟨htr, hdup, hmsg⟩ | ⟨htr, hdup, hmsg⟩
    · left
      rw [hmsg, saysOf_clearCheckedOut]
    · left
      rw [hmsg, saysOf_clearCheckedOut]
    · right
      refine ⟨?_, hdup, rfl, htr⟩
      rw [hmsg, attachCommit_saysOf]
      have happ : saysOf (clearCheckedOut msgs ++
          [newCheckpointMessage (sayTs (clearCheckedOut msgs))]) =
          saysOf (clearCheckedOut msgs) ++ [some checkpointCreatedTag] := by
        unfold saysOf
        rw [List.map_append]
        rfl
      rw [happ, saysOf_clearCheckedOut]

theorem save_countCp_le (env : EngineEnv) (enableCheckpoints : Bool) (st : MgrState)
    (msgs : List ClineMessage) (cts : Option Nat) (cs : Option String) :
    countCheckpointCreated (saveCheckpoint env enableCheckpoints st msgs false cts cs).messages
      ≤ countCheckpointCreated msgs + 1 := by
  rcases saveCheckpoint_nonCompletion_saysOf env enableCheckpoints st msgs cts cs with
    h | ⟨h, _, _, _⟩
  · rw [countCp_congr_saysOf _ _ h]
    omega
  · rw [countCp_of_saysOf_append_cp _ _ h]

theorem save_no_append_of_dup (env : EngineEnv) (enableCheckpoints : Bool) (st : MgrState)
    (msgs : List ClineMessage) (cts : Option Nat) (cs : Option String)
    (hdup : lastIsCheckpointCreated (clearCheckedOut msgs) = true) :
    countCheckpointCreated (saveCheckpoint env enableCheckpoints st msgs false cts cs).messages
      = countCheckpointCreated msgs := by
  rcases saveCheckpoint_nonCompletion_saysOf env enableCheckpoints st msgs cts cs with
    h | ⟨h, hd, _, _⟩
  · exact countCp_congr_saysOf _ _ h
  · rw [hdup] at hd
    cases hd

theorem save_result_ends_cp (env : EngineEnv) (enableCheckpoints : Bool) (st : MgrState)
    (msgs : List ClineMessage) (cts : Option Nat) (cs : Option String)
    (happend : saysOf (saveCheckpoint env enableCheckpoints st msgs false cts cs).messages =
      saysOf msgs ++ [some checkpointCreatedTag]) :
    lastIsCheckpointCreated
      (clearCheckedOut (saveCheckpoint env enableCheckpoints st msgs false cts cs).messages)
        = true := by
  rw [lastIsCheckpointCreated_says, saysOf_clearCheckedOut, happend, List.getLast?_concat]
  simp

theorem save_preserves_noBackToBack (env : EngineEnv) (enableCheckpoints : Bool)
    (st : MgrState) (msgs : List ClineMessage) (cts : Option Nat) (cs : Option String)
    (h : hasBackToBackCheckpoints msgs = false) :
    hasBackToBackCheckpoints
      (saveCheckpoint env enableCheckpoints st msgs false cts cs).messages = false := by
  rcases saveCheckpoint_nonCompletion_saysOf env enableCheckpoints st msgs cts cs with
    hs | ⟨hs, hdup, _, _⟩
  · unfold hasBackToBackCheckpoints at h ⊢
    rw [hs]
    exact h
  · unfold hasBackToBackCheckpoints at h ⊢
    rw [hs]
    refine hasConsecutive_append_last _ _ _ h ?_
    intro s hsl
    rw [lastIsCheckpointCreated_says, saysOf_clearCheckedOut, hsl] at hdup
    exact hdup

/--
**C7 (amended).** Two consecutive `saveCheckpoint(false)` calls with no
intervening activity append at most one `checkpoint_created` message over
all; exactly one is appended when checkpoints pass the guard, a tracker is
available after initialization, and the log does not already end in a
`checkpoint_created` message — the second call then detects that the most
recent message is a checkpoint marker and appends nothing; and a
`checkpoint_created` message never comes to immediately follow another one.
(The claim's unconditional "exactly one" fails when the log already ends
with a checkpoint marker: then both calls are suppressed and zero messages
are appended.)
-/
theorem saveCheckpoint_duplicate_suppression (env : EngineEnv) (enableCheckpoints : Bool)
    (st : MgrState) (msgs : List ClineMessage) :
    countCheckpointCreated
        (saveCheckpoint env enableCheckpoints
          (saveCheckpoint env enableCheckpoints st msgs false none none).state
          (saveCheckpoint env enableCheckpoints st msgs false none none).messages
          false none none).messages
      ≤ countCheckpointCreated msgs + 1 ∧
    (enableCheckpoints = true → hasTimeoutError st = false →
      (saveCheckpoint env enableCheckpoints st msgs false none none).state.checkpointTracker
          = true →
      lastIsCheckpointCreated (clearCheckedOut msgs) = false →
      countCheckpointCreated
          (saveCheckpoint env enableCheckpoints st msgs false none none).messages
        = countCheckpointCreated msgs + 1 ∧
      countCheckpointCreated
          (saveCheckpoint env enableCheckpoints
            (saveCheckpoint env enableCheckpoints st msgs false none none).state
            (saveCheckpoint env enableCheckpoints st msgs false none none).messages
            false none none).messages
        = countCheckpointCreated msgs + 1) ∧
    (hasBackToBackCheckpoints msgs = false →
      hasBackToBackCheckpoints
        (saveCheckpoint env enableCheckpoints
          (saveCheckpoint env enableCheckpoints st msgs false none none).state
          (saveCheckpoint env enableCheckpoints st msgs false none none).messages
          false none none).messages = false) := by
  refine ⟨?_, ?_, ?_⟩
  · rcases saveCheckpoint_nonCompletion_saysOf env enableCheckpoints st msgs none none with
      h1 | ⟨h1, _, _, _⟩
    · calc countCheckpointCreated
            (saveCheckpoint env enableCheckpoints
              (saveCheckpoint env enableCheckpoints st msgs false none none).state
              (saveCheckpoint env enableCheckpoints st msgs false none none).messages
              false none none).messages
          ≤ countCheckpointCreated
              (saveCheckpoint env enableCheckpoints st msgs false none none).messages + 1 :=
            save_countCp_le env enableCheckpoints _ _ none none
        _ = countCheckpointCreated msgs + 1 := by rw [countCp_congr_saysOf _ _ h1]
    · have hdup2 := save_result_ends_cp env enableCheckpoints st msgs none none h1
      rw [save_no_append_of_dup env enableCheckpoints _ _ none none hdup2]
      rw [countCp_of_saysOf_append_cp _ _ h1]
  · intro hen hte htr hdup
    have hg := guard_off_of enableCheckpoints st hen hte
    have hst := saveCheckpoint_state_eq env enableCheckpoints st msgs false none none hg
    rw [hst] at htr
    rcases saveCheckpoint_nonCompletion_messages env enableCheckpoints st msgs none none hg with
      ⟨htr0, _⟩ | ⟨_, hdup0, _⟩ | ⟨_, _, hmsg⟩
    · rw [htr] at htr0
      cases htr0
    · rw [hdup] at hdup0
      cases hdup0
    · have h1 : saysOf (saveCheckpoint env enableCheckpoints st msgs false none none).messages
          = saysOf msgs ++ [some checkpointCreatedTag] := by
        rw [hmsg, attachCommit_saysOf]
        have happ : saysOf (clearCheckedOut msgs ++
            [newCheckpointMessage (sayTs (clearCheckedOut msgs))]) =
            saysOf (clearCheckedOut msgs) ++ [some checkpointCreatedTag] := by
          unfold saysOf
          rw [List.map_append]
          rfl
        rw [happ, saysOf_clearCheckedOut]
      have hdup2 := save_result_ends_cp env enableCheckpoints st msgs none none h1
      constructor
      · rw [countCp_of_saysOf_append_cp _ _ h1]
      · rw [save_no_append_of_dup env enableCheckpoints _ _ none none hdup2]
        rw [countCp_of_saysOf_append_cp _ _ h1]
  · intro hb
    exact save_preserves_noBackToBack env enableCheckpoints _ _ none none
      (save_preserves_noBackToBack env enableCheckpoints st msgs none none hb)

/-- The single-checkpoint-marker log used to refute the unconditional
"exactly one" reading of the idempotence claim. -/
def cpOnlyLog : List ClineMessage := [msgCp2]

/--
**C7 (counterexample).** On a log that already ends with a
`checkpoint_created` message, two consecutive `saveCheckpoint(false)` calls
append zero checkpoint-created messages, not exactly one: the count stays
at 1.
-/
theorem saveCheckpoint_twice_counterexample :
    countCheckpointCreated cpOnlyLog = 1 ∧
    countCheckpointCreated
        (saveCheckpoint envOk true
          (saveCheckpoint envOk true stReady cpOnlyLog false none none).state
          (saveCheckpoint envOk true stReady cpOnlyLog false none none).messages
          false none none).messages = 1 := by
  decide

/-- Witness for the amended C7 on the empty log with an available tracker:
both calls together append exactly one checkpoint marker. -/
theorem saveCheckpoint_duplicate_suppression_witness :
    countCheckpointCreated (saveCheckpoint envOk true stReady [] false none none).messages
        = countCheckpointCreated ([] : List ClineMessage) + 1 ∧
    countCheckpointCreated
        (saveCheckpoint envOk true
          (saveCheckpoint envOk true stReady [] false none none).state
          (saveCheckpoint envOk true stReady [] false none none).messages
          false none none).messages
      = countCheckpointCreated ([] : List ClineMessage) + 1 :=
  (saveCheckpoint_duplicate_suppression envOk true stReady []).2.1 rfl (by decide) (by decide)
    (by decide)

theorem changesInitStep_tracker (env : EngineEnv) (st : MgrState) :
    (changesInitStep env st).1.checkpointTracker = trackerAfterRestoreInit env st := by
  unfold changesInitStep trackerAfterRestoreInit
  cases htr : st.checkpointTracker <;> cases herr : st.checkpointManagerErrorMessage == none <;>
    cases hco : env.createOk <;> simp [htr, herr, hco]

/--
**C9.** `doesLatestTaskCompletionHaveNewChanges` returns `true` iff:
checkpoints are enabled, the latest completion-result message exists and
carries a hash, a tracker is available (pre-existing, or created now with
no recorded error), the previous checkpoint hash resolves (last earlier
completion-result hash, or else the first checkpoint-created hash), and the
engine's changed-file count between those two hashes is nonzero; in every
missing-data or initialization-failure case it returns `false` rather than
raising an error.
-/
theorem doesLatestTaskCompletionHaveNewChanges_iff (env : EngineEnv)
    (enableCheckpoints : Bool) (st : MgrState) (msgs : List ClineMessage) :
    (doesLatestTaskCompletionHaveNewChanges env enableCheckpoints st msgs).2.2 = true ↔
      (enableCheckpoints = true ∧
        ∃ message, jsGet msgs
            (jsFindLastIndex msgs fun m => m.say == some completionResultTag) = some message ∧
          ∃ hash, message.lastCheckpointHash = some hash ∧
            trackerAfterRestoreInit env st = true ∧
            ∃ prev, previousCheckpointHash msgs
                (jsFindLastIndex msgs fun m => m.say == some completionResultTag)
                  = some prev ∧
              0 < env.diffCount prev hash) := by
  cases enableCheckpoints with
  | false => simp [doesLatestTaskCompletionHaveNewChanges]
  | true =>
    cases hmsg : jsGet msgs (jsFindLastIndex msgs fun m => m.say == some completionResultTag)
      with
    | none => simp [doesLatestTaskCompletionHaveNewChanges, hmsg]
    | some message =>
      cases hhash : message.lastCheckpointHash with
      | none => simp [doesLatestTaskCompletionHaveNewChanges, hmsg, hhash]
      | some hash =>
        have htr := changesInitStep_tracker env st
        cases ht1 : trackerAfterRestoreInit env st with
        | false =>
          rw [ht1] at htr
          simp [doesLatestTaskCompletionHaveNewChanges, hmsg, hhash, htr, ht1]
        | true =>
          rw [ht1] at htr
          cases hprev : previousCheckpointHash msgs
              (jsFindLastIndex msgs fun m => m.say == some completionResultTag) with
          | none => simp [doesLatestTaskCompletionHaveNewChanges, hmsg, hhash, htr, ht1, hprev]
          | some prev =>
            simp [doesLatestTaskCompletionHaveNewChanges, hmsg, hhash, htr, ht1, hprev]

/-- Witness for C1 at `N = 3`, `r = none`. -/
theorem checkpointTrackerCheckAndInit_singleflight_witness :
    (sfRun sfInit (List.replicate 3 .arrive ++ [.complete none])).createCalls = 1 ∧
    (sfRun sfInit (List.replicate 3 .arrive ++ [.complete none])).results = List.replicate 3 none ∧
    (sfRun sfInit (List.replicate 3 .arrive ++ [.complete none])).inFlight = false ∧
    (none = (none : Option Nat) →
      (sfStep (sfRun sfInit (List.replicate 3 .arrive ++ [.complete none])) .arrive).createCalls = 2 ∧
      (sfStep (sfRun sfInit (List.replicate 3 .arrive ++ [.complete none])) .arrive).inFlight = true) :=
  checkpointTrackerCheckAndInit_singleflight 3 none (by decide)

end Codey
